import Mathlib

/-!
Verification development for the handwriting-client job submission / polling
state machine (`src/app/routes/home.tsx`) and its transport wrapper
(`src/app/lib/api.ts`).

The embedding is shallow:

* `Status`, `DigitizationResult` mirror the `DigitizationResult` interface in
  `home.tsx` (the `_id` field is modelled as `id : Option String`, because the
  client-fabricated snapshot `{status:"pending"} as DigitizationResult` lacks it
  at runtime; the component never reads `_id`).
* `SessionState` packages the five `useState` cells of the `Home` component:
  `jobId`, `result`, `isLoading`, `error`, `progress`.  The spec calls these
  `activeJobId`, `lastSnapshot`, `isBusy`, `error`, `progress`.
* `apiFetch` mirrors `apiFetch` in `api.ts`: a fetch outcome is either a
  transport failure (the promise rejects) or an HTTP response carrying an
  `ok` flag, a numeric status and an optional parsed JSON body.  The body is
  parsed (`await response.json()`) *before* the `response.ok` check, exactly as
  in the source, so an unparseable body yields a parse error even on 2xx.
  The JSON `message` field is modelled as an optional string; the JavaScript
  truthiness test `data.message || fallback` is modelled by `orFallback`
  (absent or empty-string messages fall back).  The `data` payload retained on
  `ApiError` for diagnostics is never read by the component and is omitted.
* `pollTick` is the body of the `setInterval` callback of the polling effect
  (success branch and `catch` branch), as a function from the current session
  state and the fetch outcome to the next session state.
* `handleSubmitUrl` / `handleSubmitFile` are the submit handlers.  The URL
  handler performs no validation of its inputs (the `required type="url"`
  attribute on the input element lives outside the handler); the file handler
  checks for a missing file before touching any other state.
* A small labelled transition system (`Machine`, `Step`, `Reachable`) models
  the browser event loop: at most one interval timer (the polling effect
  cleans up and re-registers on every dependency change), a multiset of
  in-flight status requests, and in-flight submissions.  `setInterval` fires on
  wall-clock cadence, so a timer may fire again while a previous tick's fetch
  is still outstanding; `clearInterval` removes the timer but does not abort a
  fetch already started, whose continuation still runs on resolution.
-/

namespace HandwritingClient

/-- Job status, from the `DigitizationResult` interface in `home.tsx`. -/
inductive Status
  | pending
  | processing
  | completed
  | failed
deriving DecidableEq, Repr

/-- The job snapshot returned by `GET digitize/result/{id}`.  `_id` is modelled
as optional because the fabricated `{status:"pending"}` snapshot lacks it. -/
structure DigitizationResult where
  id : Option String
  status : Status
  recognizedText : Option String
  translatedText : Option String
  failureReason : Option String
deriving DecidableEq, Repr

/-- The five `useState` cells of the `Home` component. -/
structure SessionState where
  jobId : Option String
  result : Option DigitizationResult
  isLoading : Bool
  error : Option String
  progress : Nat
deriving DecidableEq, Repr

/-- A parsed JSON envelope `{data?, message?, ...}` as used by the backend. -/
structure JsonBody (α : Type) where
  message : Option String
  data : Option α
deriving DecidableEq, Repr

/-- An HTTP response as observed through `fetch`: the `ok` flag, the numeric
status, and the result of `await response.json()` (`none` = body not JSON). -/
structure HttpResponse (α : Type) where
  ok : Bool
  status : Nat
  json : Option (JsonBody α)
deriving DecidableEq, Repr

/-- Outcome of one `fetch` call: transport failure (the promise rejects) or a
response. -/
inductive FetchOutcome (α : Type)
  | networkFailure
  | response (r : HttpResponse α)
deriving DecidableEq, Repr

/-- What `apiFetch` can throw: `ApiError` (with its `message` and `status`
fields), a JSON parse failure, or a transport failure. -/
inductive FetchError
  | apiError (message : String) (status : Nat)
  | parseError
  | networkError
deriving DecidableEq, Repr

/-- JavaScript `m || fb` on the optional `message` field: an absent or
empty (falsy) message falls back. -/
def orFallback (m : Option String) (fb : String) : String :=
  match m with
  | some s => if s = "" then fb else s
  | none => fb

/-- `apiFetch` from `api.ts`: parse the body first (`await response.json()`),
then check `response.ok`, throwing `ApiError(data.message || "An API error
occurred", status, data)` on a non-ok response, else return `data.data`. -/
def apiFetch {α : Type} (o : FetchOutcome α) : Except FetchError (Option α) :=
  match o with
  | FetchOutcome.networkFailure => Except.error FetchError.networkError
  | FetchOutcome.response r =>
      match r.json with
      | none => Except.error FetchError.parseError
      | some body =>
          if r.ok then Except.ok body.data
          else Except.error
            (FetchError.apiError (orFallback body.message "An API error occurred") r.status)

/-- Payload of a successful submission: `{digitizationId}`. -/
structure SubmitData where
  digitizationId : String
deriving DecidableEq, Repr

/-- The poll-context fallback message from the polling effect's `catch`. -/
def pollFallback : String := "An unknown error occurred while fetching results."

/-- The URL-submission fallback message from `handleSubmitUrl`'s `catch`. -/
def urlSubmitFallback : String := "An unknown error occurred during URL submission."

/-- The file-submission fallback message from `handleSubmitFile`'s `catch`. -/
def fileSubmitFallback : String := "An unknown error occurred during file submission."

/-- The polling effect's `catch`: `err instanceof ApiError ? err.message :
pollFallback`. -/
def classifyPoll : FetchError → String
  | FetchError.apiError m _ => m
  | _ => pollFallback

/-- Success branch of the polling callback: `setResult(data)`, then
`if (data.status === "processing") setProgress(50)`, then on a terminal status
`setProgress(100); setJobId(null); setIsLoading(false)`. -/
def applyPollData (s : SessionState) (data : DigitizationResult) : SessionState :=
  let s1 := { s with result := some data }
  let s2 := if data.status = Status.processing then { s1 with progress := 50 } else s1
  if data.status = Status.completed ∨ data.status = Status.failed then
    { s2 with progress := 100, jobId := none, isLoading := false }
  else s2

/-- One execution of the polling `setInterval` callback, given the outcome of
its `apiFetch`.  On `Except.ok none` (2xx body without a `data` field) the
source runs `setResult(undefined)` and then throws a `TypeError` reading
`data.status`, which the `catch` classifies as a non-`ApiError`. -/
def pollTick (s : SessionState) (o : FetchOutcome DigitizationResult) : SessionState :=
  match apiFetch o with
  | Except.ok (some data) => applyPollData s data
  | Except.ok none =>
      { s with result := none, error := some pollFallback, isLoading := false, jobId := none }
  | Except.error e =>
      { s with error := some (classifyPoll e), isLoading := false, jobId := none }

/-- `resetState()`: all five cells cleared. -/
def emptySession : SessionState :=
  { jobId := none, result := none, isLoading := false, error := none, progress := 0 }

/-- State right after the synchronous prefix of a submit handler:
`resetState(); setIsLoading(true); setProgress(5)`. -/
def submitStartState : SessionState :=
  { emptySession with isLoading := true, progress := 5 }

/-- The fabricated `{status:"pending"} as DigitizationResult` snapshot. -/
def pendingSnapshot : DigitizationResult :=
  { id := none, status := Status.pending, recognizedText := none,
    translatedText := none, failureReason := none }

/-- Resolution of `handleSubmitUrl`'s awaited `apiFetch`, applied to whatever
session state is current at that point: on success `setJobId(digitizationId);
setResult(pendingSnapshot)`; on `Except.ok none` the `data.digitizationId`
access throws a `TypeError`, caught as a non-`ApiError`; on failure the
`catch` sets the classified error and `setIsLoading(false)`. -/
def applySubmitResolve (s : SessionState) (o : FetchOutcome SubmitData) : SessionState :=
  match apiFetch o with
  | Except.ok (some d) => { s with jobId := some d.digitizationId, result := some pendingSnapshot }
  | Except.ok none => { s with error := some urlSubmitFallback, isLoading := false }
  | Except.error e =>
      { s with
          error := some (match e with | FetchError.apiError m _ => m | _ => urlSubmitFallback),
          isLoading := false }

/-- The two text inputs of the URL form (`none` models an unset/empty ref). -/
structure UrlForm where
  imageUrl : Option String
  targetLanguage : Option String
deriving DecidableEq, Repr

/-- Result of running a submit handler to completion without interleaving:
the session state it leaves behind, and whether a network request was sent. -/
structure HandlerResult where
  state : SessionState
  networkRequested : Bool
deriving DecidableEq, Repr

/-- `handleSubmitUrl`, run to completion without interleaving.  The handler
inspects no form field before fetching: it unconditionally runs
`resetState(); setIsLoading(true); setProgress(5)` and issues the POST (the
form values are only serialised into the request body). -/
def handleSubmitUrl (form : UrlForm) (s : SessionState) (o : FetchOutcome SubmitData) :
    HandlerResult :=
  { state := applySubmitResolve submitStartState o, networkRequested := true }

/-- The inline fetch of `handleSubmitFile`: body parsed before the `ok` check,
`ApiError(data.message || "File upload failed", status, data)` on non-ok,
else the whole envelope's `data` field is read (`data.data`). -/
def fileUploadFetch (o : FetchOutcome SubmitData) : Except FetchError (Option SubmitData) :=
  match o with
  | FetchOutcome.networkFailure => Except.error FetchError.networkError
  | FetchOutcome.response r =>
      match r.json with
      | none => Except.error FetchError.parseError
      | some body =>
          if r.ok then Except.ok body.data
          else Except.error
            (FetchError.apiError (orFallback body.message "File upload failed") r.status)

/-- `handleSubmitFile`, run to completion without interleaving.  With no file
selected it sets only the error message and returns before `resetState()` and
before any network interaction. -/
def handleSubmitFile (file : Option Unit) (targetLanguage : Option String)
    (s : SessionState) (o : FetchOutcome SubmitData) : HandlerResult :=
  match file with
  | none =>
      { state := { s with error := some "Please select a file to upload." },
        networkRequested := false }
  | some _ =>
      { state :=
          match fileUploadFetch o with
          | Except.ok (some d) =>
              { submitStartState with
                  jobId := some d.digitizationId, result := some pendingSnapshot }
          | Except.ok none =>
              { submitStartState with error := some fileSubmitFallback, isLoading := false }
          | Except.error e =>
              { submitStartState with
                  error := some
                    (match e with | FetchError.apiError m _ => m | _ => fileSubmitFallback),
                  isLoading := false },
        networkRequested := true }

/-- Fold a sequence of successful poll responses over a session state. -/
def runTicks (s : SessionState) : List DigitizationResult → SessionState
  | [] => s
  | d :: ds => runTicks (applyPollData s d) ds

/-- The session state right after a successful submission for job `j`. -/
def postSubmitState (j : String) : SessionState :=
  { submitStartState with jobId := some j, result := some pendingSnapshot }

/-- `completed` and `failed` are the terminal statuses. -/
def isTerminal : Status → Bool
  | Status.completed => true
  | Status.failed => true
  | _ => false

/-- Modelled from the spec: the ProgressEstimator pure mapping
`pending→5, processing→50, completed→100, failed→100` (the source has no such
named function; the component updates `progress` inline per status). -/
def estimate : Status → Nat
  | Status.pending => 5
  | Status.processing => 50
  | Status.completed => 100
  | Status.failed => 100

/-- Position of a status in the server's ordered progression
`pending → processing → {completed|failed}`. -/
def rank : Status → Nat
  | Status.pending => 0
  | Status.processing => 1
  | Status.completed => 2
  | Status.failed => 2

/-- The server contract's no-regression order on statuses. -/
def statusLe (a b : Status) : Prop := rank a ≤ rank b

instance : DecidableRel statusLe := fun a b => inferInstanceAs (Decidable (rank a ≤ rank b))

/-! ## The event-loop machine

`Machine` is the state of the browser event loop relevant to the polling logic:
the component's session state, the (at most one) live interval timer together
with the `jobId` its closure captured, the multiset of in-flight status
requests (each recorded with the job id its URL was built from), and the
number of in-flight submissions.  The polling `useEffect` has dependency array
`[jobId, result]`: on every change it first runs its cleanup (`clearInterval`)
and then re-registers an interval iff the guard
`!jobId || (result && terminal(result.status))` lets it through, so after every
state change the timer equals `reconcile` of the new state.  `clearInterval`
does not abort a fetch already started: its continuation still runs when the
response arrives. -/

/-- The polling effect's guard: poll iff a job id is set and the last snapshot
is not terminal. -/
def shouldPoll (s : SessionState) : Bool :=
  s.jobId.isSome &&
    !(match s.result with
      | some r => isTerminal r.status
      | none => false)

/-- The timer left behind by effect reconciliation on state `s`. -/
def reconcile (s : SessionState) : Option String :=
  if shouldPoll s then s.jobId else none

/-- Event-loop state: session state, live timer (with the captured job id),
in-flight status requests, and in-flight submissions. -/
structure Machine where
  state : SessionState
  timer : Option String
  inflight : List String
  pendingSubmits : Nat
deriving DecidableEq, Repr

/-- Observable events of the event loop. -/
inductive Label
  | fire (j : String)
  | pollResolve (j : String) (o : FetchOutcome DigitizationResult)
  | submitStart
  | submitResolve (o : FetchOutcome SubmitData)

/-- Does this event hand out job id `j` (a submission resolving successfully
with `digitizationId = j`)? -/
def grantsId (l : Label) (j : String) : Bool :=
  match l with
  | Label.submitResolve o =>
      match apiFetch o with
      | Except.ok (some d) => d.digitizationId == j
      | _ => false
  | _ => false

/-- One step of the event loop.

* `fire`: the live interval fires; the callback starts and issues a status
  request for the captured job id (`setInterval` runs on wall-clock cadence,
  so this may happen while an earlier request is still in flight).
* `pollResolve`: an in-flight status request resolves with some outcome; the
  rest of the callback runs, the resulting state change re-reconciles the
  effect.
* `submitStart`: a submit handler runs its synchronous prefix
  (`resetState(); setIsLoading(true); setProgress(5)`) and issues the POST.
* `submitResolve`: an in-flight submission resolves; the rest of the handler
  runs on the then-current state. -/
inductive Step : Machine → Label → Machine → Prop
  | fire (m : Machine) (j : String) (h : m.timer = some j) :
      Step m (Label.fire j)
        { m with inflight := j :: m.inflight }
  | pollResolve (m : Machine) (j : String) (o : FetchOutcome DigitizationResult)
      (h : j ∈ m.inflight) :
      Step m (Label.pollResolve j o)
        { state := pollTick m.state o,
          timer := reconcile (pollTick m.state o),
          inflight := m.inflight.erase j,
          pendingSubmits := m.pendingSubmits }
  | submitStart (m : Machine) :
      Step m Label.submitStart
        { state := submitStartState,
          timer := reconcile submitStartState,
          inflight := m.inflight,
          pendingSubmits := m.pendingSubmits + 1 }
  | submitResolve (m : Machine) (o : FetchOutcome SubmitData)
      (h : 0 < m.pendingSubmits) :
      Step m (Label.submitResolve o)
        { state := applySubmitResolve m.state o,
          timer := reconcile (applySubmitResolve m.state o),
          inflight := m.inflight,
          pendingSubmits := m.pendingSubmits - 1 }

/-- The initial machine: empty session, no timer, nothing in flight. -/
def initMachine : Machine :=
  { state := emptySession, timer := none, inflight := [], pendingSubmits := 0 }

/-- Machines reachable from the initial one. -/
inductive Reachable : Machine → Prop
  | init : Reachable initMachine
  | step {m l m'} : Reachable m → Step m l m' → Reachable m'

/-- A finite run of the event loop with its trace of events. -/
inductive Steps : Machine → List Label → Machine → Prop
  | nil (m : Machine) : Steps m [] m
  | cons {m l m' ls m''} : Step m l m' → Steps m' ls m'' → Steps m (l :: ls) m''

/-! ## A concrete execution

The following run is realizable in a browser: submit job `"A"`; the interval
fires twice before the first response arrives (each response took longer than
the 3000 ms period); the first response reports `completed`, terminating the
job and re-enabling the forms; the user submits job `"B"`; then the second,
still-in-flight response for `"A"` arrives and is applied while `"B"` is the
active job.  Finally `"B"`'s first poll fails at the transport level. -/

/-- Successful submission response handing out id `"A"`. -/
def submitOkA : FetchOutcome SubmitData :=
  FetchOutcome.response
    { ok := true, status := 200,
      json := some { message := none, data := some { digitizationId := "A" } } }

/-- Successful submission response handing out id `"B"`. -/
def submitOkB : FetchOutcome SubmitData :=
  FetchOutcome.response
    { ok := true, status := 200,
      json := some { message := none, data := some { digitizationId := "B" } } }

/-- A `pending` snapshot for job `"A"`. -/
def pendingA : DigitizationResult :=
  { id := some "A", status := Status.pending, recognizedText := none,
    translatedText := none, failureReason := none }

/-- A `processing` snapshot for job `"A"`. -/
def processingA : DigitizationResult :=
  { id := some "A", status := Status.processing, recognizedText := none,
    translatedText := none, failureReason := none }

/-- A `completed` snapshot for job `"A"`. -/
def completedA : DigitizationResult :=
  { id := some "A", status := Status.completed, recognizedText := some "Hola",
    translatedText := some "Hello", failureReason := none }

/-- A 2xx poll response whose body carries snapshot `d`. -/
def okPoll (d : DigitizationResult) : FetchOutcome DigitizationResult :=
  FetchOutcome.response { ok := true, status := 200, json := some { message := none, data := some d } }

def m0 : Machine := initMachine

/-- After `handleSubmitUrl`'s synchronous prefix for job `"A"`. -/
def m1 : Machine :=
  { state := submitStartState, timer := reconcile submitStartState,
    inflight := m0.inflight, pendingSubmits := m0.pendingSubmits + 1 }

/-- The submission for `"A"` resolves: polling for `"A"` begins. -/
def m2 : Machine :=
  { state := applySubmitResolve m1.state submitOkA,
    timer := reconcile (applySubmitResolve m1.state submitOkA),
    inflight := m1.inflight, pendingSubmits := m1.pendingSubmits - 1 }

/-- The interval fires: one status request for `"A"` in flight. -/
def m3 : Machine := { m2 with inflight := "A" :: m2.inflight }

/-- The interval fires again before the first response arrives: two status
requests for `"A"` in flight. -/
def m4 : Machine := { m3 with inflight := "A" :: m3.inflight }

/-- Alternative continuation from `m4`: the two overlapping `"A"` requests
resolve out of order.  First the later-issued response (`processing`) is
applied: `progress` becomes 50, `"A"` still active. -/
def m4a : Machine :=
  { state := pollTick m4.state (okPoll processingA),
    timer := reconcile (pollTick m4.state (okPoll processingA)),
    inflight := m4.inflight.erase "A", pendingSubmits := m4.pendingSubmits }

/-- Then the stale earlier response (`pending`) is applied: the `pending`
branch writes no progress, so `progress` stays at 50 while the freshly
applied snapshot reports `pending`. -/
def m4b : Machine :=
  { state := pollTick m4a.state (okPoll pendingA),
    timer := reconcile (pollTick m4a.state (okPoll pendingA)),
    inflight := m4a.inflight.erase "A", pendingSubmits := m4a.pendingSubmits }

/-- The first `"A"` response (`completed`) is applied: job `"A"` terminal,
forms re-enabled, but one `"A"` request is still in flight. -/
def m5 : Machine :=
  { state := pollTick m4.state (okPoll completedA),
    timer := reconcile (pollTick m4.state (okPoll completedA)),
    inflight := m4.inflight.erase "A", pendingSubmits := m4.pendingSubmits }

/-- The user submits job `"B"` (synchronous prefix). -/
def m6 : Machine :=
  { state := submitStartState, timer := reconcile submitStartState,
    inflight := m5.inflight, pendingSubmits := m5.pendingSubmits + 1 }

/-- The submission for `"B"` resolves: `"B"` is now the active job, while a
stale `"A"` request is still in flight. -/
def m7 : Machine :=
  { state := applySubmitResolve m6.state submitOkB,
    timer := reconcile (applySubmitResolve m6.state submitOkB),
    inflight := m6.inflight, pendingSubmits := m6.pendingSubmits - 1 }

/-- The stale `"A"` response (`processing`) arrives and is applied while `"B"`
is active: `result` and `progress` are overwritten. -/
def m8 : Machine :=
  { state := pollTick m7.state (okPoll processingA),
    timer := reconcile (pollTick m7.state (okPoll processingA)),
    inflight := m7.inflight.erase "A", pendingSubmits := m7.pendingSubmits }

/-- The interval for `"B"` fires. -/
def m9 : Machine := { m8 with inflight := "B" :: m8.inflight }

/-- `"B"`'s poll fails at the transport level. -/
def m10 : Machine :=
  { state := pollTick m9.state FetchOutcome.networkFailure,
    timer := reconcile (pollTick m9.state FetchOutcome.networkFailure),
    inflight := m9.inflight.erase "B", pendingSubmits := m9.pendingSubmits }

/-- The machine a `fire "A"` step from `m7` would have to produce. -/
def m7fireA : Machine := { m7 with inflight := "A" :: m7.inflight }

/-- A spec-conformant poll history: `pending`, `processing`, `completed`. -/
def exampleTicks : List DigitizationResult := [pendingA, processingA, completedA]

/-- In every reachable machine the live timer is exactly what effect
reconciliation of the current session state produces. -/
lemma reachable_timer {m : Machine} (h : Reachable m) : m.timer = reconcile m.state := by
  induction h with
  | init => rfl
  | step _ hs ih =>
      cases hs with
      | fire j hj => exact ih
      | pollResolve j o hin => rfl
      | submitStart => rfl
      | submitResolve o hp => rfl

/-- If reconciliation keeps a timer for `j`, the session is tracking `j`. -/
lemma reconcile_some {s : SessionState} {j : String} (h : reconcile s = some j) :
    s.jobId = some j := by
  unfold reconcile at h
  by_cases hp : shouldPoll s
  · rwa [if_pos hp] at h
  · rw [if_neg hp] at h
    exact absurd h (by simp)

/-- A status request is only ever issued for the job id the session is
currently tracking. -/
lemma fire_active {m m' : Machine} {j : String}
    (hr : Reachable m) (hs : Step m (Label.fire j) m') :
    m.state.jobId = some j := by
  have ht := reachable_timer hr
  generalize hl : Label.fire j = l at hs
  cases hs with
  | fire i hi =>
      injection hl with h1
      subst h1
      rw [ht] at hi
      exact reconcile_some hi
  | pollResolve i o hin => exact Label.noConfusion hl
  | submitStart => exact Label.noConfusion hl
  | submitResolve o hp => exact Label.noConfusion hl

/-- A poll tick never installs a job id: it leaves `jobId` unchanged or
clears it. -/
lemma pollTick_jobId (s : SessionState) (o : FetchOutcome DigitizationResult) :
    (pollTick s o).jobId = s.jobId ∨ (pollTick s o).jobId = none := by
  unfold pollTick
  cases hfo : apiFetch o with
  | ok v =>
      cases v with
      | some data =>
          unfold applyPollData
          by_cases hterm : data.status = Status.completed ∨ data.status = Status.failed
          · simp [hterm]
          · by_cases hproc : data.status = Status.processing
            · simp [hterm, hproc]
            · simp [hterm, hproc]
      | none => simp
  | error e => simp

/-- A step that does not hand out job id `j` cannot make `j` the tracked id. -/
lemma step_preserves_not_jobId {m : Machine} {l : Label} {m' : Machine} {j : String}
    (hs : Step m l m') (hj : m.state.jobId ≠ some j) (hg : grantsId l j = false) :
    m'.state.jobId ≠ some j := by
  cases hs with
  | fire i hi => exact hj
  | pollResolve i o hin =>
      rcases pollTick_jobId m.state o with h | h
      · simpa [h] using hj
      · simp [h]
  | submitStart =>
      simp [submitStartState, emptySession]
  | submitResolve o hp =>
      simp only [grantsId] at hg
      cases hfo : apiFetch o with
      | ok v =>
          cases v with
          | some d =>
              rw [hfo] at hg
              have hne : d.digitizationId ≠ j := by simpa using hg
              simp [applySubmitResolve, hfo, hne]
          | none => simpa [applySubmitResolve, hfo] using hj
      | error e => simpa [applySubmitResolve, hfo] using hj

/-- Once the session is not tracking `j`, no later run issues a status request
for `j` unless some submission in it hands out `j` again. -/
lemma no_fire_of_inactive {j : String} {m : Machine} {ls : List Label} {m' : Machine}
    (hsteps : Steps m ls m') (hr : Reachable m) (hj : m.state.jobId ≠ some j)
    (hg : ∀ l ∈ ls, grantsId l j = false) :
    Label.fire j ∉ ls := by
  induction hsteps with
  | nil => simp
  | cons hstep hrest ih =>
      rename_i m l mmid ls' m''
      intro hmem
      rcases List.mem_cons.mp hmem with heq | hmem'
      · subst heq
        exact hj (fire_active hr hstep)
      · have hr' : Reachable mmid := Reachable.step hr hstep
        have hj' : mmid.state.jobId ≠ some j :=
          step_preserves_not_jobId hstep hj (hg l (List.mem_cons_self l ls'))
        have hg' : ∀ l' ∈ ls', grantsId l' j = false :=
          fun l' hl' => hg l' (List.mem_cons_of_mem l hl')
        exact ih hr' hj' hg' hmem'

lemma step01 : Step m0 Label.submitStart m1 := Step.submitStart m0

lemma step12 : Step m1 (Label.submitResolve submitOkA) m2 :=
  Step.submitResolve m1 submitOkA (by decide)

lemma step23 : Step m2 (Label.fire "A") m3 := Step.fire m2 "A" (by decide)

lemma step34 : Step m3 (Label.fire "A") m4 := Step.fire m3 "A" (by decide)

lemma step45 : Step m4 (Label.pollResolve "A" (okPoll completedA)) m5 :=
  Step.pollResolve m4 "A" (okPoll completedA) (by decide)

lemma step4_4a : Step m4 (Label.pollResolve "A" (okPoll processingA)) m4a :=
  Step.pollResolve m4 "A" (okPoll processingA) (by decide)

lemma step4a_4b : Step m4a (Label.pollResolve "A" (okPoll pendingA)) m4b :=
  Step.pollResolve m4a "A" (okPoll pendingA) (by decide)

lemma step56 : Step m5 Label.submitStart m6 := Step.submitStart m5

lemma step67 : Step m6 (Label.submitResolve submitOkB) m7 :=
  Step.submitResolve m6 submitOkB (by decide)

lemma step78 : Step m7 (Label.pollResolve "A" (okPoll processingA)) m8 :=
  Step.pollResolve m7 "A" (okPoll processingA) (by decide)

lemma step89 : Step m8 (Label.fire "B") m9 := Step.fire m8 "B" (by decide)

lemma step910 : Step m9 (Label.pollResolve "B" FetchOutcome.networkFailure) m10 :=
  Step.pollResolve m9 "B" FetchOutcome.networkFailure (by decide)

lemma reach_m1 : Reachable m1 := Reachable.step Reachable.init step01

lemma reach_m2 : Reachable m2 := Reachable.step reach_m1 step12

lemma reach_m3 : Reachable m3 := Reachable.step reach_m2 step23

lemma reach_m4 : Reachable m4 := Reachable.step reach_m3 step34

lemma reach_m4a : Reachable m4a := Reachable.step reach_m4 step4_4a

lemma reach_m4b : Reachable m4b := Reachable.step reach_m4a step4a_4b

lemma reach_m5 : Reachable m5 := Reachable.step reach_m4 step45

lemma reach_m6 : Reachable m6 := Reachable.step reach_m5 step56

lemma reach_m7 : Reachable m7 := Reachable.step reach_m6 step67

lemma reach_m8 : Reachable m8 := Reachable.step reach_m7 step78

lemma reach_m9 : Reachable m9 := Reachable.step reach_m8 step89

/-- Inverting a `pollResolve` step: the new session state is the tick applied
to the old one, and the timer is re-reconciled. -/
lemma pollResolve_inversion {m m' : Machine} {j : String} {o : FetchOutcome DigitizationResult}
    (hs : Step m (Label.pollResolve j o) m') :
    m'.state = pollTick m.state o ∧ m'.timer = reconcile (pollTick m.state o) := by
  generalize hl : Label.pollResolve j o = l at hs
  cases hs with
  | fire i hi => exact Label.noConfusion hl
  | pollResolve i oo hin =>
      injection hl with h1 h2
      subst h1
      subst h2
      exact ⟨rfl, rfl⟩
  | submitStart => exact Label.noConfusion hl
  | submitResolve oo hp => exact Label.noConfusion hl

/-- A tick whose fetch succeeded with a terminal snapshot finalizes the
session state. -/
lemma pollTick_terminal {s : SessionState} {o : FetchOutcome DigitizationResult}
    {d : DigitizationResult}
    (ho : apiFetch o = Except.ok (some d))
    (hterm : d.status = Status.completed ∨ d.status = Status.failed) :
    pollTick s o =
      { s with result := some d, progress := 100, jobId := none, isLoading := false } := by
  unfold pollTick
  rw [ho]
  unfold applyPollData
  rcases hterm with h | h
  · simp [h]
  · simp [h]

/-- A tick whose fetch failed sets the classified error and halts. -/
lemma pollTick_error {s : SessionState} {o : FetchOutcome DigitizationResult} {e : FetchError}
    (ho : apiFetch o = Except.error e) :
    pollTick s o =
      { s with error := some (classifyPoll e), isLoading := false, jobId := none } := by
  unfold pollTick
  rw [ho]

/-- The progress written by a successful tick, per status. -/
lemma applyPollData_progress (s : SessionState) (d : DigitizationResult) :
    (applyPollData s d).progress =
      if isTerminal d.status then 100
      else if d.status = Status.processing then 50
      else s.progress := by
  rcases d with ⟨i, st, a, b, c⟩
  cases st <;> simp [applyPollData, isTerminal]

/-- `runTicks` distributes over list append. -/
lemma runTicks_append (s : SessionState) (l1 l2 : List DigitizationResult) :
    runTicks s (l1 ++ l2) = runTicks (runTicks s l1) l2 := by
  induction l1 generalizing s with
  | nil => rfl
  | cons d ds ih => simpa [runTicks] using ih (applyPollData s d)

/-- Under any tick sequence, progress stays in `{5, 50, 100}` once it starts
there. -/
lemma runTicks_progress_cases (ds : List DigitizationResult) :
    ∀ s : SessionState,
      (s.progress = 5 ∨ s.progress = 50 ∨ s.progress = 100) →
      ((runTicks s ds).progress = 5 ∨ (runTicks s ds).progress = 50 ∨
        (runTicks s ds).progress = 100) := by
  induction ds with
  | nil => intro s hs; exact hs
  | cons d ds ih =>
      intro s hs
      apply ih
      rw [applyPollData_progress]
      by_cases ht : isTerminal d.status
      · simp [ht]
      · by_cases hp : d.status = Status.processing
        · simp [ht, hp]
        · simpa [ht, hp] using hs

/-- Under non-terminal ticks, progress stays in `{5, 50}`. -/
lemma runTicks_nonterminal_cases (ds : List DigitizationResult) :
    ∀ s : SessionState,
      (s.progress = 5 ∨ s.progress = 50) →
      (∀ d ∈ ds, isTerminal d.status = false) →
      ((runTicks s ds).progress = 5 ∨ (runTicks s ds).progress = 50) := by
  induction ds with
  | nil => intro s hs _; exact hs
  | cons d ds ih =>
      intro s hs hnt
      apply ih
      · rw [applyPollData_progress]
        rw [hnt d (List.mem_cons_self d ds)]
        by_cases hp : d.status = Status.processing
        · simp [hp]
        · simpa [hp] using hs
      · intro d' hd'
        exact hnt d' (List.mem_cons_of_mem d hd')

/-- A successful tick never decreases progress from `{5, 50}`. -/
lemma applyPollData_mono (s : SessionState) (d : DigitizationResult)
    (hs : s.progress = 5 ∨ s.progress = 50) :
    s.progress ≤ (applyPollData s d).progress := by
  rw [applyPollData_progress]
  by_cases ht : isTerminal d.status
  · rcases hs with h | h <;> simp [ht, h]
  · by_cases hp : d.status = Status.processing
    · rcases hs with h | h <;> simp [hp, h, isTerminal]
    · simp [ht, hp]

/-- JavaScript `m || fb` with a non-empty fallback is never empty. -/
lemma orFallback_ne_empty {m : Option String} {fb : String} (h : fb ≠ "") :
    orFallback m fb ≠ "" := by
  unfold orFallback
  cases m with
  | none => exact h
  | some s =>
      by_cases hs : s = ""
      · simpa [hs] using h
      · simpa [hs] using hs

/-- Every error `apiFetch` can produce: a transport failure, a parse failure,
or an `ApiError` whose message went through `data.message || fallback`. -/
lemma apiFetch_error_cases {α : Type} {o : FetchOutcome α} {e : FetchError}
    (h : apiFetch o = Except.error e) :
    e = FetchError.networkError ∨ e = FetchError.parseError ∨
      ∃ (body : JsonBody α) (st : Nat),
        e = FetchError.apiError (orFallback body.message "An API error occurred") st := by
  cases o with
  | networkFailure =>
      unfold apiFetch at h
      injection h with h1
      exact Or.inl h1.symm
  | response r =>
      rcases r with ⟨ok, st, json⟩
      cases json with
      | none =>
          unfold apiFetch at h
          injection h with h1
          exact Or.inr (Or.inl h1.symm)
      | some body =>
          unfold apiFetch at h
          cases ok with
          | true => simp at h
          | false =>
              simp only [Bool.false_eq_true, if_false] at h
              injection h with h1
              exact Or.inr (Or.inr ⟨body, st, h1.symm⟩)

/-- An element of a proper prefix of `ds` lies in `ds.dropLast`. -/
lemma mem_take_dropLast {ds : List DigitizationResult} {i : Nat} (hi : i < ds.length)
    {d : DigitizationResult} (hd : d ∈ ds.take i) : d ∈ ds.dropLast := by
  have h1 : ds.take i = ds.dropLast.take i := by
    rw [List.dropLast_eq_take, List.take_take]
    have h2 : min i (ds.length - 1) = i := Nat.min_eq_left (Nat.le_sub_one_of_lt hi)
    rw [h2]
  rw [h1] at hd
  exact List.mem_of_mem_take hd

/-- Unfolding one more tick of a prefix run. -/
lemma runTicks_take_succ {s : SessionState} {ds : List DigitizationResult} {i : Nat}
    (hi : i < ds.length) :
    runTicks s (ds.take (i + 1)) = applyPollData (runTicks s (ds.take i)) (ds.get ⟨i, hi⟩) := by
  rw [List.take_succ, runTicks_append, List.getElem?_eq_getElem hi]
  rfl

/-- While only non-terminal snapshots have been applied, progress is 5 or 50. -/
lemma prefix_progress {j : String} {ds : List DigitizationResult}
    (hactive : ∀ d ∈ ds.dropLast, isTerminal d.status = false)
    {i : Nat} (hi : i < ds.length) :
    (runTicks (postSubmitState j) (ds.take i)).progress = 5 ∨
      (runTicks (postSubmitState j) (ds.take i)).progress = 50 := by
  apply runTicks_nonterminal_cases
  · exact Or.inl rfl
  · intro d hd
    exact hactive d (mem_take_dropLast hi hd)

/-- A tick whose status does not regress below the previous one leaves
progress at the spec's estimate of its own status. -/
lemma applyPollData_estimate {s : SessionState} {d : DigitizationResult} {prev : Status}
    (hprev : s.progress = estimate prev) (hle : statusLe prev d.status) :
    (applyPollData s d).progress = estimate d.status := by
  rcases d with ⟨i, st, a, b, c⟩
  cases st with
  | pending =>
      cases prev with
      | pending => simpa [applyPollData, estimate] using hprev
      | processing => simp [statusLe, rank] at hle
      | completed => simp [statusLe, rank] at hle
      | failed => simp [statusLe, rank] at hle
  | processing => simp [applyPollData, estimate]
  | completed => simp [applyPollData, estimate]
  | failed => simp [applyPollData, estimate]

/-- Along a non-regressing status history, the progress recorded after each
tick is exactly the spec's estimate of that tick's status. -/
lemma runTicks_estimate_aux :
    ∀ (ds : List DigitizationResult) (s : SessionState) (prev : Status),
      s.progress = estimate prev →
      List.Chain statusLe prev (ds.map (fun d => d.status)) →
      ∀ i, ∀ h : i < ds.length,
        (runTicks s (ds.take (i + 1))).progress = estimate (ds.get ⟨i, h⟩).status := by
  intro ds
  induction ds with
  | nil =>
      intro s prev hp hc i h
      exact absurd h (by simp)
  | cons d ds ih =>
      intro s prev hp hc i h
      rw [List.map_cons, List.chain_cons] at hc
      obtain ⟨hle, hc'⟩ := hc
      cases i with
      | zero => simpa [runTicks] using applyPollData_estimate hp hle
      | succ i' =>
          have h' : i' < ds.length := by simpa using h
          have hp' : (applyPollData s d).progress = estimate d.status :=
            applyPollData_estimate hp hle
          simpa [runTicks] using ih (applyPollData s d) d.status hp' hc' i' h'

/-!  ## The claims -/

/-- **C1 (counterexample).**  The claim says a stale in-flight response never
mutates `SessionState` once a different job id is active.  In the reachable
machine `m7`, job `"B"` is active while a response for the superseded job
`"A"` is still in flight; when that response arrives (step to `m8`) it
overwrites `result` with `"A"`'s `processing` snapshot and bumps `progress`
from 5 to 50: the poll callback performs no id check. -/
theorem stale_response_mutates_state :
    Reachable m7 ∧
      Step m7 (Label.pollResolve "A" (okPoll processingA)) m8 ∧
      m7.state.jobId = some "B" ∧
      m8.state ≠ m7.state ∧
      m8.state.result = some processingA ∧
      m8.state.progress = 50 ∧
      m7.state.progress = 5 :=
  ⟨reach_m7, step78, by decide, by decide, by decide, by decide, by decide⟩

/-- **C1 (amended).**  A stale in-flight response *is* applied to
`SessionState` exactly as a live one would be (the callback has no id check);
what supersession does guarantee is that no *new* status request is ever
started for a job id that is not the currently active one: the superseded
id's interval was cleared by the effect cleanup. -/
theorem no_request_for_inactive_id {m : Machine} {j : String}
    (hr : Reachable m) (hj : m.state.jobId ≠ some j) :
    ∀ m', ¬ Step m (Label.fire j) m' :=
  fun _ hs => hj (fire_active hr hs)

theorem no_request_for_inactive_id_witness :
    ¬ Step m7 (Label.fire "A") m7fireA :=
  no_request_for_inactive_id reach_m7 (by decide) m7fireA

/-- **C2 (counterexample).**  The claim says two in-flight status requests for
the same job never coexist, because tick n+1 would be scheduled only after
tick n completes.  The code schedules with `setInterval` on wall-clock
cadence: in the reachable machine `m4` the interval has fired twice while
neither response has arrived, so two requests for the active job `"A"` are
simultaneously outstanding. -/
theorem overlapping_requests_reachable :
    Reachable m4 ∧ m4.state.jobId = some "A" ∧ m4.inflight = ["A", "A"] ∧
      m4.inflight.count "A" = 2 :=
  ⟨reach_m4, by decide, by decide, by decide⟩

/-- **C2 (amended).**  Ticks are scheduled on a fixed wall-clock cadence
(`setInterval`), not relative to completion of the previous check, so two
in-flight requests for the same job id can coexist whenever a check outlasts
the 3000 ms period.  What does hold: every status request that is issued is
issued for the currently active job id (the effect tears the interval down
whenever the active id changes). -/
theorem request_only_for_active_id {m m' : Machine} {j : String}
    (hr : Reachable m) (hs : Step m (Label.fire j) m') :
    m.state.jobId = some j :=
  fire_active hr hs

theorem request_only_for_active_id_witness :
    m2.state.jobId = some "A" :=
  request_only_for_active_id reach_m2 step23

/-- **C3.**  A poll tick whose response carries a terminal status
(`completed` or `failed`) leaves `lastSnapshot` equal to that response,
`progress = 100`, `isBusy = false`, clears the active job id, stops the
poller (no timer remains), and no status request for that job id is ever
issued afterwards — in any continuation in which no later submission hands
out the same id again (the server contract makes terminal ids permanent, so a
fresh submission never returns one). -/
theorem terminal_tick_finalizes {m m' : Machine} {j : String}
    {o : FetchOutcome DigitizationResult} {d : DigitizationResult}
    (hr : Reachable m)
    (ho : apiFetch o = Except.ok (some d))
    (hterm : d.status = Status.completed ∨ d.status = Status.failed)
    (hs : Step m (Label.pollResolve j o) m') :
    m'.state.result = some d ∧ m'.state.progress = 100 ∧ m'.state.isLoading = false ∧
      m'.state.jobId = none ∧ m'.timer = none ∧
      ∀ ls m'', Steps m' ls m'' → (∀ l ∈ ls, grantsId l j = false) →
        Label.fire j ∉ ls := by
  have hr' : Reachable m' := Reachable.step hr hs
  obtain ⟨hstate, htimer⟩ := pollResolve_inversion hs
  rw [pollTick_terminal ho hterm] at hstate htimer
  refine ⟨?_, ?_, ?_, ?_, ?_, ?_⟩
  · rw [hstate]
  · rw [hstate]
  · rw [hstate]
  · rw [hstate]
  · rw [htimer]
    simp [reconcile, shouldPoll]
  · intro ls m'' hsteps hg
    exact no_fire_of_inactive hsteps hr' (by rw [hstate]; simp) hg

theorem terminal_tick_finalizes_witness :
    m5.state.result = some completedA ∧ m5.state.progress = 100 ∧
      m5.state.isLoading = false ∧ m5.state.jobId = none ∧ m5.timer = none := by
  have ho : apiFetch (okPoll completedA) = Except.ok (some completedA) := rfl
  have hterm : completedA.status = Status.completed ∨ completedA.status = Status.failed :=
    Or.inl rfl
  have h := terminal_tick_finalizes reach_m4 ho hterm step45
  exact ⟨h.1, h.2.1, h.2.2.1, h.2.2.2.1, h.2.2.2.2.1⟩

/-- **C4.**  A poll tick whose status fetch fails (transport failure, parse
failure, or non-2xx) sets `error` to the classified message, sets
`isBusy = false`, clears the active job id, stops the poller, and no further
tick is ever issued for that job id in any continuation in which no later
submission hands out the same id again: poll failures are never retried. -/
theorem poll_failure_halts {m m' : Machine} {j : String}
    {o : FetchOutcome DigitizationResult} {e : FetchError}
    (hr : Reachable m)
    (ho : apiFetch o = Except.error e)
    (hs : Step m (Label.pollResolve j o) m') :
    m'.state.error = some (classifyPoll e) ∧ m'.state.isLoading = false ∧
      m'.state.jobId = none ∧ m'.timer = none ∧
      ∀ ls m'', Steps m' ls m'' → (∀ l ∈ ls, grantsId l j = false) →
        Label.fire j ∉ ls := by
  have hr' : Reachable m' := Reachable.step hr hs
  obtain ⟨hstate, htimer⟩ := pollResolve_inversion hs
  rw [pollTick_error ho] at hstate htimer
  refine ⟨?_, ?_, ?_, ?_, ?_⟩
  · rw [hstate]
  · rw [hstate]
  · rw [hstate]
  · rw [htimer]
    simp [reconcile, shouldPoll]
  · intro ls m'' hsteps hg
    exact no_fire_of_inactive hsteps hr' (by rw [hstate]; simp) hg

theorem poll_failure_halts_witness :
    m10.state.error = some pollFallback ∧ m10.state.isLoading = false ∧
      m10.state.jobId = none ∧ m10.timer = none := by
  have ho : apiFetch (FetchOutcome.networkFailure : FetchOutcome DigitizationResult)
      = Except.error FetchError.networkError := rfl
  have h := poll_failure_halts reach_m9 ho step910
  exact ⟨h.1, h.2.1, h.2.2.1, h.2.2.2.1⟩

/-- **C5.**  Over any sequence of successful poll ticks applied from the
post-submission state (progress 5) while the job stays active (only the last
tick may be terminal — a terminal tick clears the active id and ends the
sequence), `progress` is a natural number bounded by 100, non-decreasing
tick by tick, and reaches 100 only on a tick whose status is terminal. -/
theorem progress_monotone_bounded (j : String) (ds : List DigitizationResult)
    (hactive : ∀ d ∈ ds.dropLast, isTerminal d.status = false) :
    (∀ i : Nat, (runTicks (postSubmitState j) (ds.take i)).progress ≤ 100) ∧
      (∀ i : Nat,
        (runTicks (postSubmitState j) (ds.take i)).progress ≤
          (runTicks (postSubmitState j) (ds.take (i + 1))).progress) ∧
      (∀ i : Nat, ∀ hi : i < ds.length,
        (runTicks (postSubmitState j) (ds.take (i + 1))).progress = 100 →
        isTerminal (ds.get ⟨i, hi⟩).status = true) := by
  refine ⟨?_, ?_, ?_⟩
  · intro i
    rcases runTicks_progress_cases (ds.take i) (postSubmitState j) (Or.inl rfl)
      with h | h | h <;> omega
  · intro i
    by_cases hi : i < ds.length
    · rw [runTicks_take_succ hi]
      exact applyPollData_mono _ _ (prefix_progress hactive hi)
    · have hlen : ds.length ≤ i := Nat.le_of_not_lt hi
      rw [List.take_of_length_le hlen, List.take_of_length_le (Nat.le_succ_of_le hlen)]
  · intro i hi h100
    rw [runTicks_take_succ hi, applyPollData_progress] at h100
    by_cases ht : isTerminal (ds.get ⟨i, hi⟩).status = true
    · exact ht
    · rw [if_neg ht] at h100
      rcases prefix_progress hactive hi (j := j) with h | h
      · by_cases hp : (ds.get ⟨i, hi⟩).status = Status.processing
        · rw [if_pos hp] at h100
          exact absurd h100 (by decide)
        · rw [if_neg hp] at h100
          omega
      · by_cases hp : (ds.get ⟨i, hi⟩).status = Status.processing
        · rw [if_pos hp] at h100
          exact absurd h100 (by decide)
        · rw [if_neg hp] at h100
          omega

theorem progress_monotone_bounded_witness :
    (runTicks (postSubmitState "A") (exampleTicks.take 1)).progress ≤
        (runTicks (postSubmitState "A") (exampleTicks.take 2)).progress ∧
      (runTicks (postSubmitState "A") (exampleTicks.take 3)).progress ≤ 100 ∧
      isTerminal completedA.status = true := by
  have h := progress_monotone_bounded "A" exampleTicks (by decide)
  exact ⟨h.2.1 1, h.1 3, h.2.2 2 (by decide) (by decide)⟩

/-- **C6.**  For failed poll interactions: a non-2xx response whose JSON body
carries a non-empty `message` yields that message verbatim; a transport
failure or unparseable body yields the fixed poll-context fallback; and every
fetch failure yields a non-empty displayed error.  (The JSON `message` is
modelled as an optional string; a present-but-empty message is falsy in
`data.message || fallback` and the claim's own "never empty" clause excludes
it from the verbatim case.) -/
theorem poll_error_messages (s : SessionState) :
    (∀ (st : Nat) (body : JsonBody DigitizationResult) (msg : String),
        body.message = some msg → msg ≠ "" →
        (pollTick s (FetchOutcome.response { ok := false, status := st, json := some body })).error
          = some msg) ∧
      ((pollTick s FetchOutcome.networkFailure).error = some pollFallback) ∧
      (∀ r : HttpResponse DigitizationResult, r.json = none →
        (pollTick s (FetchOutcome.response r)).error = some pollFallback) ∧
      (∀ (o : FetchOutcome DigitizationResult) (e : FetchError),
        apiFetch o = Except.error e →
        ∃ msg, (pollTick s o).error = some msg ∧ msg ≠ "") := by
  refine ⟨?_, ?_, ?_, ?_⟩
  · intro st body msg hmsg hne
    have ho : apiFetch (FetchOutcome.response { ok := false, status := st, json := some body })
        = Except.error
            (FetchError.apiError (orFallback body.message "An API error occurred") st) := by
      simp [apiFetch]
    rw [pollTick_error ho]
    simp [classifyPoll, orFallback, hmsg, hne]
  · rfl
  · intro r hjson
    rcases r with ⟨ok, st, json⟩
    cases hjson
    have ho : apiFetch (α := DigitizationResult)
        (FetchOutcome.response { ok := ok, status := st, json := none })
        = Except.error FetchError.parseError := by
      simp [apiFetch]
    rw [pollTick_error ho]
    rfl
  · intro o e ho
    rw [pollTick_error ho]
    refine ⟨classifyPoll e, rfl, ?_⟩
    rcases apiFetch_error_cases ho with he | he | ⟨body, st, he⟩ <;> subst he
    · decide
    · decide
    · exact orFallback_ne_empty (by decide)

theorem poll_error_messages_witness :
    (pollTick emptySession (FetchOutcome.response
        { ok := false, status := 400,
          json := some { message := some "bad image", data := none } })).error
        = some "bad image" ∧
      (pollTick emptySession FetchOutcome.networkFailure).error = some pollFallback := by
  have h := poll_error_messages emptySession
  exact ⟨h.1 400 { message := some "bad image", data := none } "bad image" rfl (by decide),
    h.2.1⟩

/-- **C7 (counterexample).**  The claim says every tick observing status
`pending` yields progress 5.  The code's `pending` branch writes no progress
at all, and overlapping in-flight requests (reachable, see `m4`) may resolve
out of order: in the reachable machine `m4b` a `processing` response was
applied first (progress 50) and the stale `pending` response afterwards — the
pending tick leaves progress at 50 ≠ 5 while job `"A"` is still active and
the freshly applied snapshot reports `pending`. -/
theorem pending_tick_keeps_progress :
    Reachable m4b ∧
      Step m4a (Label.pollResolve "A" (okPoll pendingA)) m4b ∧
      pendingA.status = Status.pending ∧
      m4b.state.result = some pendingA ∧
      m4b.state.jobId = some "A" ∧
      m4b.state.progress = 50 ∧
      estimate Status.pending = 5 ∧
      m4b.state.progress ≠ estimate Status.pending :=
  ⟨reach_m4b, step4a_4b, by decide, by decide, by decide, by decide, by decide, by decide⟩

/-- **C7 (amended).**  The progress mapping the code applies per tick is:
`processing→50`, `completed→100`, `failed→100`, and `pending→no write` — a
`pending` tick leaves the previous progress unchanged rather than writing 5.
Consequently a `pending` tick shows 5 exactly while progress is still at the
submission value: along any status history respecting the server's
no-regression order, the progress recorded after each tick equals the spec's
`estimate` of that tick's status; in the reachable out-of-order schedule of
the counterexample, a `pending` tick after a `processing` one leaves 50. -/
theorem tick_progress_mapping :
    (∀ (s : SessionState) (d : DigitizationResult),
        d.status = Status.processing → (applyPollData s d).progress = 50) ∧
      (∀ (s : SessionState) (d : DigitizationResult),
        isTerminal d.status = true → (applyPollData s d).progress = 100) ∧
      (∀ (s : SessionState) (d : DigitizationResult),
        d.status = Status.pending → (applyPollData s d).progress = s.progress) ∧
      (∀ (j : String) (ds : List DigitizationResult),
        List.Chain statusLe Status.pending (ds.map (fun d => d.status)) →
        ∀ i, ∀ h : i < ds.length,
          (runTicks (postSubmitState j) (ds.take (i + 1))).progress
            = estimate (ds.get ⟨i, h⟩).status) := by
  refine ⟨?_, ?_, ?_, ?_⟩
  · intro s d hd
    rw [applyPollData_progress, hd]
    simp [isTerminal]
  · intro s d hd
    rw [applyPollData_progress, hd]
    simp
  · intro s d hd
    rw [applyPollData_progress, hd]
    simp [isTerminal]
  · intro j ds hchain
    exact runTicks_estimate_aux ds (postSubmitState j) Status.pending rfl hchain

theorem tick_progress_mapping_witness :
    (applyPollData (postSubmitState "A") processingA).progress = 50 ∧
      (applyPollData (postSubmitState "A") completedA).progress = 100 ∧
      (applyPollData (postSubmitState "A") pendingA).progress
        = (postSubmitState "A").progress ∧
      (runTicks (postSubmitState "A") (exampleTicks.take 2)).progress = 50 := by
  have hchain : List.Chain statusLe Status.pending (exampleTicks.map (fun d => d.status)) :=
    List.Chain.cons (by decide)
      (List.Chain.cons (by decide) (List.Chain.cons (by decide) List.Chain.nil))
  have h := tick_progress_mapping
  exact ⟨h.1 (postSubmitState "A") processingA rfl,
    h.2.1 (postSubmitState "A") completedA rfl,
    h.2.2.1 (postSubmitState "A") pendingA rfl,
    h.2.2.2 "A" exampleTicks hchain 1 (by decide)⟩

/-- **C8 (counterexample).**  The claim says a missing required input fails
with a validation error before any network request on *both* submission
paths.  The URL handler performs no validation: invoked with no `imageUrl`
value at all, it still issues the network request, sets `isBusy = true` and
`progress = 5` (overwriting the prior state), and sets no validation error. -/
theorem url_submit_skips_validation :
    (handleSubmitUrl { imageUrl := none, targetLanguage := none } emptySession
        submitOkA).networkRequested = true ∧
      (handleSubmitUrl { imageUrl := none, targetLanguage := none } emptySession
        submitOkA).state.isLoading = true ∧
      (handleSubmitUrl { imageUrl := none, targetLanguage := none } emptySession
        submitOkA).state.progress = 5 ∧
      emptySession.isLoading = false ∧ emptySession.progress = 0 ∧
      (handleSubmitUrl { imageUrl := none, targetLanguage := none } emptySession
        submitOkA).state.error = none := by
  decide

/-- **C8 (amended).**  Only the file path validates before the network: with
no file selected, `handleSubmitFile` sets exactly the error message and
changes nothing else, issuing no request.  The URL handler issues the network
request unconditionally — its only guard is the HTML `required type="url"`
constraint on the input element, outside the handler. -/
theorem file_validation_before_network :
    (∀ (tl : Option String) (s : SessionState) (o : FetchOutcome SubmitData),
        handleSubmitFile none tl s o =
          { state := { s with error := some "Please select a file to upload." },
            networkRequested := false }) ∧
      (∀ (form : UrlForm) (s : SessionState) (o : FetchOutcome SubmitData),
        (handleSubmitUrl form s o).networkRequested = true) :=
  ⟨fun _ _ _ => rfl, fun _ _ _ => rfl⟩

/-- **C9.**  A non-2xx response whose body parses but has no `message` field
is displayed as the transport wrapper's own constant ("An API error occurred"
on the apiFetch path, "File upload failed" on the file-upload path), not the
poll-context fallback; the context fallback appears exactly when the thrown
error is not an `ApiError`. -/
theorem api_error_message_precedence :
    (∀ (s : SessionState) (st : Nat) (dt : Option DigitizationResult),
        (pollTick s (FetchOutcome.response
            { ok := false, status := st, json := some { message := none, data := dt } })).error
          = some "An API error occurred") ∧
      (∀ (tl : Option String) (s : SessionState) (st : Nat) (dt : Option SubmitData),
        (handleSubmitFile (some ()) tl s (FetchOutcome.response
            { ok := false, status := st, json := some { message := none, data := dt } })).state.error
          = some "File upload failed") ∧
      (∀ (s : SessionState) (o : FetchOutcome DigitizationResult) (msg : String) (st : Nat),
        apiFetch o = Except.error (FetchError.apiError msg st) →
        (pollTick s o).error = some msg) ∧
      (∀ (s : SessionState) (o : FetchOutcome DigitizationResult) (e : FetchError),
        apiFetch o = Except.error e →
        (∀ (msg : String) (st : Nat), e ≠ FetchError.apiError msg st) →
        (pollTick s o).error = some pollFallback) := by
  refine ⟨?_, ?_, ?_, ?_⟩
  · intro s st dt
    have ho : apiFetch (FetchOutcome.response
        { ok := false, status := st, json := some { message := none, data := dt } })
        = Except.error (FetchError.apiError "An API error occurred" st) := by
      simp [apiFetch, orFallback]
    rw [pollTick_error ho]
    rfl
  · intro tl s st dt
    simp [handleSubmitFile, fileUploadFetch, orFallback]
  · intro s o msg st ho
    rw [pollTick_error ho]
    rfl
  · intro s o e ho hne
    rw [pollTick_error ho]
    cases e with
    | apiError msg st => exact absurd rfl (hne msg st)
    | parseError => rfl
    | networkError => rfl

theorem api_error_message_precedence_witness :
    (pollTick emptySession (FetchOutcome.response
        { ok := false, status := 500, json := some { message := none, data := none } })).error
      = some "An API error occurred" :=
  api_error_message_precedence.1 emptySession 500 none

/-- **C10.**  `apiFetch` parses the body before checking `response.ok`, so a
2xx response whose body is not valid JSON fails with a parse error — which is
not an `ApiError`. -/
theorem body_parsed_before_ok_check (st : Nat) :
    apiFetch (FetchOutcome.response
        ({ ok := true, status := st, json := none } : HttpResponse DigitizationResult))
      = Except.error FetchError.parseError ∧
      apiFetch (FetchOutcome.response
        ({ ok := true, status := st, json := none } : HttpResponse SubmitData))
      = Except.error FetchError.parseError ∧
      ∀ (msg : String) (s2 : Nat), FetchError.parseError ≠ FetchError.apiError msg s2 :=
  ⟨rfl, rfl, fun _ _ h => FetchError.noConfusion h⟩

end HandwritingClient
